import Mathlib

/-!
Shallow embedding of the authentication layer of `fasthtml_toolbox`:
the route handlers of `auth/routes.py`, the schema bootstrap of
`auth/database.py`, and (modelled from the spec, since their source is not
part of the repository snapshot) the user repository and the access gate.
Machine-checked statements about the behaviour of these operations follow
the definitions.
-/

/-- The user record (Credential Model instance).  Timestamps are modelled as
natural-number instants. -/
structure User where
  id : Nat
  username : String
  email : String
  password : String
  role : String
  active : Bool
  created_at : Nat
  last_login : Nat
deriving DecidableEq, Repr

/-- A session value is either a string or a numeric id, matching the signed
cookie holding `{username, user_id, role}`. -/
inductive SessVal where
  | str (s : String)
  | num (n : Nat)
deriving DecidableEq, Repr

/-- The cookie-backed session: an ordered key-value mapping. -/
abbrev Session := List (String × SessVal)

/-- Dictionary read: value of the first binding of `k`, if any. -/
def sessGet (s : Session) (k : String) : Option SessVal :=
  (s.find? (fun p => p.1 = k)).map (·.2)

/-- Dictionary write `sess[k] = v`: replace the binding in place if the key is
present, otherwise append it. -/
def sessSet : Session → String → SessVal → Session
  | [], k, v => [(k, v)]
  | (k', v') :: rest, k, v =>
      if k' = k then (k, v) :: rest else (k', v') :: sessSet rest k v

/-- Submitted form data (and query parameters): string key-value pairs. -/
abbrev Form := List (String × String)

/-- `form.get(key, default)`: the first value bound to `k`, or `d`. -/
def formGet (f : Form) (k d : String) : String :=
  ((f.find? (fun p => p.1 = k)).map (·.2)).getD d

/-- `query_params.get(key)`: the first value bound to `k`, if any. -/
def queryGet (q : Form) (k : String) : Option String :=
  (q.find? (fun p => p.1 = k)).map (·.2)

/-- Python `str.strip()`: drop whitespace from both ends of the string. -/
def pyStrip (s : String) : String :=
  ⟨((s.data.dropWhile Char.isWhitespace).reverse.dropWhile
      Char.isWhitespace).reverse⟩

/-- A handler's result: a redirect with a status code, a rendered page, or the
profile form rendered for a user. -/
inductive Response where
  | redirect (url : String) (statusCode : Nat)
  | page (title : String) (error : Option String)
  | profilePage (u : User) (success error : Option String) (action : String)
deriving DecidableEq, Repr

/-- Modelled from the spec: the user table held by the storage collaborator,
as the ordered list of user rows. -/
abbrev UserTable := List User

/-- Modelled from the spec: `get_by_username` of the User Repository (its
source is not in the snapshot) — exact-match, case-sensitive lookup. -/
def get_by_username (db : UserTable) (username : String) : Option User :=
  db.find? (fun u => u.username = username)

/-- Modelled from the spec: `get_by_id` of the User Repository. -/
def get_by_id (db : UserTable) (id : Nat) : Option User :=
  db.find? (fun u => u.id = id)

/-- Modelled from the spec: stand-in for the salted password hash of the
Credential Model.  The claims under verification do not depend on the
cryptographic properties of the hash, only on verification going through the
hashing primitive, so the hash is represented as an injective tagging. -/
def hashPassword (p : String) : String := "$fh$" ++ p

/-- Modelled from the spec: `verify_password` — comparison delegating to the
hashing primitive. -/
def verify_password (plain hashed : String) : Bool :=
  hashPassword plain = hashed

/-- Modelled from the spec: id assignment by storage on creation. -/
def nextId (db : UserTable) : Nat :=
  db.foldr (fun u m => max u.id m) 0 + 1

/-- Modelled from the spec: `create` of the User Repository — fails with
Conflict (here `none`, leaving the table untouched) when the username already
exists, otherwise hashes the password and inserts the new row with role
`"user"`, returning the created record and the updated table. -/
def create (db : UserTable) (now : Nat) (username email password : String) :
    Option User × UserTable :=
  if (get_by_username db username).isSome then (none, db)
  else
    let u : User :=
      { id := nextId db, username := username, email := email,
        password := hashPassword password, role := "user", active := true,
        created_at := now, last_login := now }
    (some u, db ++ [u])

/-- Modelled from the spec: `authenticate` of the User Repository — fetch by
username; if absent, inactive, or hash verification fails, uniformly `none`;
on success update `last_login` and return the record and updated table. -/
def authenticate (db : UserTable) (now : Nat) (username password : String) :
    Option User × UserTable :=
  match get_by_username db username with
  | none => (none, db)
  | some u =>
      if u.active && verify_password password u.password then
        let u2 := { u with last_login := now }
        (some u2, db.map (fun x => if x.id = u.id then u2 else x))
      else (none, db)

/-- `login_submit` (POST handler of `{prefix}/login` in `auth/routes.py`):
strip the username, pass the password verbatim, authenticate; on success set
the three session keys and redirect to the form's `next` URL (default `/`);
on failure redirect to the login page with `error=invalid`. -/
def login_submit (pfx : String) (db : UserTable) (now : Nat)
    (form : Form) (sess : Session) : Response × Session × UserTable :=
  let username := pyStrip (formGet form "username" "")
  let password := formGet form "password" ""
  match authenticate db now username password with
  | (some user, db2) =>
      let sess2 := sessSet sess "auth" (.str user.username)
      let sess3 := sessSet sess2 "user_id" (.num user.id)
      let sess4 := sessSet sess3 "role" (.str user.role)
      let next_url := formGet form "next" "/"
      (.redirect next_url 303, sess4, db2)
  | (none, db2) =>
      (.redirect (pfx ++ "/login?error=invalid") 303, sess, db2)

/-- `logout` (handler of `{prefix}/logout`): clear the whole session and
redirect to the login page. -/
def logout (pfx : String) (sess : Session) : Response × Session :=
  let _ := sess
  (.redirect (pfx ++ "/login") 303, ([] : Session))

/-- `register_submit` (POST handler of `{prefix}/register`): strip username
and email; reject mismatched confirmation, then an already-taken username,
then create the user; on success auto-login (same three session keys) and
redirect to `/`. -/
def register_submit (pfx : String) (db : UserTable) (now : Nat)
    (form : Form) (sess : Session) : Response × Session × UserTable :=
  let username := pyStrip (formGet form "username" "")
  let email := pyStrip (formGet form "email" "")
  let password := formGet form "password" ""
  let confirm := formGet form "confirm_password" ""
  if password ≠ confirm then
    (.redirect (pfx ++ "/register?error=password_mismatch") 303, sess, db)
  else if (get_by_username db username).isSome then
    (.redirect (pfx ++ "/register?error=username_taken") 303, sess, db)
  else
    match create db now username email password with
    | (some user, db2) =>
        let sess2 := sessSet sess "auth" (.str user.username)
        let sess3 := sessSet sess2 "user_id" (.num user.id)
        let sess4 := sessSet sess3 "role" (.str user.role)
        (.redirect "/" 303, sess4, db2)
    | (none, db2) =>
        (.redirect (pfx ++ "/register?error=creation_failed") 303, sess, db2)

/-- `profile_page` (GET handler of `{prefix}/profile`): read the principal
from the request scope under key `"user"` (added by the beforeware; a missing
key is a failure, hence `Option`) and render the profile form. -/
def profile_page (scope : List (String × User)) (q : Form) (pfx : String) :
    Option Response :=
  match (scope.find? (fun p => p.1 = "user")).map (·.2) with
  | some u =>
      some (.profilePage u (queryGet q "success") (queryGet q "error")
        (pfx ++ "/profile"))
  | none => none

/-- The framework-facing record of one `@rt(path, methods=[...])` call:
`methods = none` means the call passed no `methods` argument. -/
structure Route where
  path : String
  methods : Option (List String)
  handler : String
deriving DecidableEq, BEq, Repr

/-- Configuration mapping; the values the auth routes consult are booleans. -/
abbrev Config := List (String × Bool)

/-- `config.get(key)` / `config.get(key, False)`: both yield the same truth
value, since an absent key is falsy. -/
def cfgGet (c : Config) (k : String) : Option Bool :=
  (c.find? (fun p => p.1 = k)).map (·.2)

/-- Truthiness of a `config.get` result. -/
def truthy (v : Option Bool) : Bool := v.getD false

/-- `AuthRoutes._register_login_routes`. -/
def register_login_routes (pfx : String) : List Route :=
  [⟨pfx ++ "/login", some ["GET"], "login_page"⟩,
   ⟨pfx ++ "/login", some ["POST"], "login_submit"⟩]

/-- `AuthRoutes._register_logout_route` (no `methods` argument). -/
def register_logout_route (pfx : String) : List Route :=
  [⟨pfx ++ "/logout", none, "logout"⟩]

/-- `AuthRoutes._register_profile_route`. -/
def register_profile_route (pfx : String) : List Route :=
  [⟨pfx ++ "/profile", some ["GET"], "profile_page"⟩]

/-- `AuthRoutes._register_registration_routes`: re-checks the flag (with
default `False`) before registering the GET page and the POST handler. -/
def register_registration_routes (cfg : Config) (pfx : String) : List Route :=
  if truthy (cfgGet cfg "allow_registration") then
    [⟨pfx ++ "/register", some ["GET"], "register_page"⟩,
     ⟨pfx ++ "/register", some ["POST"], "register_submit"⟩]
  else []

/-- `AuthRoutes._register_password_reset_routes`: re-checks the flag, then
registers only the GET form page `forgot_page`. -/
def register_password_reset_routes (cfg : Config) (pfx : String) : List Route :=
  if truthy (cfgGet cfg "allow_password_reset") then
    [⟨pfx ++ "/forgot", some ["GET"], "forgot_page"⟩]
  else []

/-- `AuthRoutes.register_all`: login, logout and profile routes always; the
registration group and the password-reset group each behind its flag. -/
def register_all (cfg : Config) (pfx : String) : List Route :=
  register_login_routes pfx ++ register_logout_route pfx ++
  register_profile_route pfx ++
  (if truthy (cfgGet cfg "allow_registration") then
    register_registration_routes cfg pfx
  else []) ++
  (if truthy (cfgGet cfg "allow_password_reset") then
    register_password_reset_routes cfg pfx
  else [])

/-- Outcome of the access gate's per-request classification. -/
inductive GateState where
  | publicPath
  | unauthenticated (redirectUrl : String)
  | authenticated (u : User)
deriving DecidableEq, Repr

/-- Modelled from the spec: public-path matching of the Access Gate — exact or
prefix match against the configured list. -/
def pathIsPublic (publicPaths : List String) (path : String) : Bool :=
  publicPaths.any (fun p => path = p || path.startsWith p)

/-- Modelled from the spec: the Access Gate (beforeware), whose source is not
in the snapshot.  Public paths pass untouched with no principal lookup; a
session without a stored user id redirects to login with a `next` parameter;
a stale or inactive principal redirects likewise and clears the session;
otherwise the resolved User is attached to the request scope under the key
`"user"` (the key read by `profile_page` and the example application). -/
def access_gate (publicPaths : List String) (login_path : String)
    (db : UserTable) (sess : Session) (path : String) :
    GateState × List (String × User) × Session :=
  if pathIsPublic publicPaths path then (.publicPath, [], sess)
  else
    match sessGet sess "user_id" with
    | some (.num uid) =>
        match get_by_id db uid with
        | some u =>
            if u.active then (.authenticated u, [("user", u)], sess)
            else (.unauthenticated (login_path ++ "?next=" ++ path), [], [])
        | none => (.unauthenticated (login_path ++ "?next=" ++ path), [], [])
    | _ => (.unauthenticated (login_path ++ "?next=" ++ path), [], sess)

/-- The storage schema: the set of tables that exist, as an ordered list. -/
structure Schema where
  tables : List String
deriving DecidableEq, Repr

/-- `db.create(Model, ...)` of the storage collaborator: creates the table if
it does not exist, otherwise returns the current table (per the comment in
`auth/database.py`). -/
def dbCreate (s : Schema) (t : String) : Schema :=
  if t ∈ s.tables then s else ⟨s.tables ++ [t]⟩

/-- The mutable state of `AuthDatabase`: the live database handle plus the
table references populated by initialization. -/
structure AuthDatabase where
  db : Schema
  users : Option String
  sessions : Option String
deriving DecidableEq, Repr

/-- `AuthDatabase.initialize_auth_tables`: ensure the `user` and `session`
tables exist, record the table references, and return the live handle. -/
def initialize_auth_tables (st : AuthDatabase) : AuthDatabase × Schema :=
  let db1 := dbCreate st.db "user"
  let db2 := dbCreate db1 "session"
  ({ db := db2, users := some "user", sessions := some "session" }, db2)

/-- Status code of a handler result, when that result is a redirect. -/
def redirectStatus : Response → Option Nat
  | .redirect _ c => some c
  | _ => none

/-- A sample user row shared by the concrete evaluations below. -/
def alice0 : User :=
  { id := 1, username := "alice", email := "alice@example.com",
    password := hashPassword "secret123", role := "user", active := true,
    created_at := 0, last_login := 0 }

theorem sessGet_sessSet_self (s : Session) (k : String) (v : SessVal) :
    sessGet (sessSet s k v) k = some v := by
  induction s with
  | nil => simp [sessSet, sessGet]
  | cons p rest ih =>
      obtain ⟨k', v'⟩ := p
      by_cases h : k' = k
      · simp [sessSet, h, sessGet]
      · simpa [sessSet, h, sessGet, List.find?] using ih

theorem sessGet_sessSet_other (s : Session) (k k' : String) (v : SessVal)
    (hne : k' ≠ k) : sessGet (sessSet s k v) k' = sessGet s k' := by
  induction s with
  | nil => simp [sessSet, sessGet, List.find?, Ne.symm hne]
  | cons p rest ih =>
      obtain ⟨k₀, v₀⟩ := p
      by_cases h : k₀ = k
      · subst h
        simp [sessSet, sessGet, List.find?, Ne.symm hne, hne]
      · by_cases h' : k₀ = k'
        · simp [sessSet, h, sessGet, List.find?, h', hne]
        · simpa [sessSet, h, sessGet, List.find?, h'] using ih

theorem sessGet_auth_triple (sess : Session) (a : String) (i : Nat)
    (r : String) (k : String) :
    sessGet (sessSet (sessSet (sessSet sess "auth" (.str a)) "user_id"
        (.num i)) "role" (.str r)) k =
      if k = "auth" then some (.str a)
      else if k = "user_id" then some (.num i)
      else if k = "role" then some (.str r)
      else sessGet sess k := by
  by_cases h1 : k = "auth"
  · subst h1
    rw [sessGet_sessSet_other _ _ _ _ (by decide),
        sessGet_sessSet_other _ _ _ _ (by decide), sessGet_sessSet_self]
    simp
  · by_cases h2 : k = "user_id"
    · subst h2
      rw [sessGet_sessSet_other _ _ _ _ (by decide), sessGet_sessSet_self]
      simp
    · by_cases h3 : k = "role"
      · subst h3
        rw [sessGet_sessSet_self]
        simp
      · rw [sessGet_sessSet_other _ _ _ _ h3, sessGet_sessSet_other _ _ _ _ h2,
            sessGet_sessSet_other _ _ _ _ h1]
        simp [h1, h2, h3]

/-- Claim C2: a login submission that fails authentication leaves the session
mapping unchanged and redirects to the login path with the single generic
indicator `error=invalid`, the same response for every failing submission. -/
theorem login_submit_failure_generic (pfx : String) (db : UserTable) (now : Nat)
    (form : Form) (sess : Session) (db2 : UserTable)
    (hauth : authenticate db now (pyStrip (formGet form "username" ""))
      (formGet form "password" "") = (none, db2)) :
    login_submit pfx db now form sess =
      (.redirect (pfx ++ "/login?error=invalid") 303, sess, db2) := by
  simp [login_submit, hauth]

theorem login_submit_failure_generic_witness :
    login_submit "/auth" [] 0 [] [] =
      (.redirect "/auth/login?error=invalid" 303, ([] : Session),
        ([] : UserTable)) :=
  login_submit_failure_generic "/auth" [] 0 [] [] [] rfl

/-- Claim C3: a login submission that authenticates successfully sets exactly
the session keys `auth` (username), `user_id` (id) and `role` (role), leaves
every other session key unchanged, and redirects with 303 to the form's
`next` URL, which defaults to `/` when no `next` value is present. -/
theorem login_submit_success_sets_session (pfx : String) (db : UserTable)
    (now : Nat) (form : Form) (sess : Session) (user : User) (db2 : UserTable)
    (hauth : authenticate db now (pyStrip (formGet form "username" ""))
      (formGet form "password" "") = (some user, db2)) :
    (login_submit pfx db now form sess).1 =
        .redirect (formGet form "next" "/") 303 ∧
    (∀ k, sessGet (login_submit pfx db now form sess).2.1 k =
        if k = "auth" then some (.str user.username)
        else if k = "user_id" then some (.num user.id)
        else if k = "role" then some (.str user.role)
        else sessGet sess k) ∧
    (form.find? (fun p => p.1 = "next") = none →
      formGet form "next" "/" = "/") := by
  refine ⟨by simp [login_submit, hauth], fun k => ?_,
    fun h => by simp [formGet, h]⟩
  simp only [login_submit, hauth]
  exact sessGet_auth_triple sess user.username user.id user.role k

theorem login_submit_success_sets_session_witness :
    (login_submit "/auth" [alice0] 7
        [("username", " alice "), ("password", "secret123"), ("next", "/home")]
        [("theme", .str "dark")]).1 = .redirect "/home" 303 := by
  have h := login_submit_success_sets_session "/auth" [alice0] 7
      [("username", " alice "), ("password", "secret123"), ("next", "/home")]
      [("theme", .str "dark")]
      { alice0 with last_login := 7 } [{ alice0 with last_login := 7 }]
      (by decide)
  rw [h.1]
  rfl

/-- Claim C9: for every session state, the logout handler clears the whole
session mapping (no key survives) and returns a 303 redirect to the login
page. -/
theorem logout_clears_whole_session (pfx : String) (sess : Session) :
    logout pfx sess = (.redirect (pfx ++ "/login") 303, ([] : Session)) ∧
    ∀ k, sessGet (logout pfx sess).2 k = none :=
  ⟨rfl, fun _ => rfl⟩

/-- Claim C10: both submit handlers strip surrounding whitespace from the
username (and `register_submit` also from the email) while passing the
password fields through verbatim, so two submissions whose usernames (or
emails) differ only in surrounding whitespace behave identically. -/
theorem handlers_whitespace_insensitive (pfx : String) (db : UserTable)
    (now : Nat) (sess : Session) (f1 f2 : Form) :
    (pyStrip (formGet f1 "username" "") = pyStrip (formGet f2 "username" "") →
     formGet f1 "password" "" = formGet f2 "password" "" →
     formGet f1 "next" "/" = formGet f2 "next" "/" →
     login_submit pfx db now f1 sess = login_submit pfx db now f2 sess) ∧
    (pyStrip (formGet f1 "username" "") = pyStrip (formGet f2 "username" "") →
     pyStrip (formGet f1 "email" "") = pyStrip (formGet f2 "email" "") →
     formGet f1 "password" "" = formGet f2 "password" "" →
     formGet f1 "confirm_password" "" = formGet f2 "confirm_password" "" →
     register_submit pfx db now f1 sess = register_submit pfx db now f2 sess) := by
  constructor
  · intro hu hp hn
    simp only [login_submit, hu, hp, hn]
  · intro hu he hp hc
    simp only [register_submit, hu, he, hp, hc]

theorem handlers_whitespace_insensitive_witness :
    login_submit "/auth" [alice0] 0
        [("username", "  alice "), ("password", "secret123")] [] =
      login_submit "/auth" [alice0] 0
        [("username", "alice"), ("password", "secret123")] [] :=
  (handlers_whitespace_insensitive "/auth" [alice0] 0 []
      [("username", "  alice "), ("password", "secret123")]
      [("username", "alice"), ("password", "secret123")]).1
    (by decide) (by decide) (by decide)

/-- Claim C1, counterexample: a registration whose username is already taken
but whose password confirmation mismatches is redirected with
`error=password_mismatch`, not `error=username_taken`, so the claim's
"redirecting with a username-taken error" does not hold for every submission
whose username names an existing user. -/
theorem register_submit_taken_mismatch_counterexample :
    get_by_username [alice0] "alice" = some alice0 ∧
    (register_submit "/auth" [alice0] 0
        [("username", "alice"), ("password", "a"), ("confirm_password", "b")]
        []).1 = .redirect "/auth/register?error=password_mismatch" 303 ∧
    (register_submit "/auth" [alice0] 0
        [("username", "alice"), ("password", "a"), ("confirm_password", "b")]
        []).1 ≠ .redirect "/auth/register?error=username_taken" 303 :=
  ⟨rfl, rfl, by decide⟩

/-- Claim C1 (amended): for every registration submission whose password and
confirmation match and whose stripped username already names an existing
user, `register_submit` redirects (303) to the register page with the
username-taken error and leaves both the user table (so no record is created
or mutated) and the session unchanged. -/
theorem register_submit_username_taken (pfx : String) (db : UserTable)
    (now : Nat) (form : Form) (sess : Session) (u : User)
    (hpw : formGet form "password" "" = formGet form "confirm_password" "")
    (hex : get_by_username db (pyStrip (formGet form "username" "")) = some u) :
    register_submit pfx db now form sess =
      (.redirect (pfx ++ "/register?error=username_taken") 303, sess, db) := by
  simp [register_submit, hpw, hex]

theorem register_submit_username_taken_witness :
    register_submit "/auth" [alice0] 0
        [("username", "alice"), ("password", "pw"), ("confirm_password", "pw")]
        [] =
      (.redirect "/auth/register?error=username_taken" 303, ([] : Session),
        [alice0]) :=
  register_submit_username_taken "/auth" [alice0] 0
    [("username", "alice"), ("password", "pw"), ("confirm_password", "pw")]
    [] alice0 rfl (by decide)

/-- Claim C7: every redirect produced by the auth handlers' own decisions —
login success and failure, logout, and each registration outcome — carries
HTTP status code 303 (see-other). -/
theorem handlers_redirect_303 (pfx : String) (db : UserTable) (now : Nat)
    (form : Form) (sess : Session) :
    redirectStatus (login_submit pfx db now form sess).1 = some 303 ∧
    redirectStatus (logout pfx sess).1 = some 303 ∧
    redirectStatus (register_submit pfx db now form sess).1 = some 303 := by
  refine ⟨?_, rfl, ?_⟩
  · simp only [login_submit]
    split <;> simp [redirectStatus]
  · simp only [register_submit]
    repeat' split
    all_goals simp [redirectStatus]

/-- Claim C8: a registration that creates its user auto-logs the new user in:
the three session keys are set from the created record (all other session
keys untouched), the response is a 303 redirect to `/`, and the table is the
one returned by `create`; no separate login step intervenes. -/
theorem register_submit_success_autologin (pfx : String) (db : UserTable)
    (now : Nat) (form : Form) (sess : Session) (user : User) (db2 : UserTable)
    (hpw : formGet form "password" "" = formGet form "confirm_password" "")
    (hnew : get_by_username db (pyStrip (formGet form "username" "")) = none)
    (hcreate : create db now (pyStrip (formGet form "username" ""))
        (pyStrip (formGet form "email" "")) (formGet form "password" "") =
        (some user, db2)) :
    (register_submit pfx db now form sess).1 = .redirect "/" 303 ∧
    (register_submit pfx db now form sess).2.2 = db2 ∧
    (∀ k, sessGet (register_submit pfx db now form sess).2.1 k =
        if k = "auth" then some (.str user.username)
        else if k = "user_id" then some (.num user.id)
        else if k = "role" then some (.str user.role)
        else sessGet sess k) := by
  have hcreate' : create db now (pyStrip (formGet form "username" ""))
      (pyStrip (formGet form "email" ""))
      (formGet form "confirm_password" "") = (some user, db2) := by
    rw [← hpw]; exact hcreate
  have hbody : register_submit pfx db now form sess =
      (.redirect "/" 303,
        sessSet (sessSet (sessSet sess "auth" (.str user.username)) "user_id"
          (.num user.id)) "role" (.str user.role), db2) := by
    simp [register_submit, hpw, hnew, hcreate']
  refine ⟨by rw [hbody], by rw [hbody], fun k => ?_⟩
  rw [hbody]
  exact sessGet_auth_triple sess user.username user.id user.role k

theorem register_submit_success_autologin_witness :
    (register_submit "/auth" [] 3
        [("username", " bob "), ("email", " b@x.com "), ("password", "pw"),
         ("confirm_password", "pw")] []).1 = .redirect "/" 303 :=
  (register_submit_success_autologin "/auth" [] 3
    [("username", " bob "), ("email", " b@x.com "), ("password", "pw"),
     ("confirm_password", "pw")] []
    { id := 1, username := "bob", email := "b@x.com",
      password := hashPassword "pw", role := "user", active := true,
      created_at := 3, last_login := 3 }
    [{ id := 1, username := "bob", email := "b@x.com",
       password := hashPassword "pw", role := "user", active := true,
       created_at := 3, last_login := 3 }]
    rfl (by decide) (by decide)).1

/-- Claim C4: `register_all` registers the registration routes iff
`allow_registration` is truthy and the password-reset surface iff
`allow_password_reset` is truthy; that surface is a stub: a GET form page
only, and no POST handler exists besides the login and register submits. -/
theorem register_all_feature_flags (cfg : Config) (pfx : String) :
    ((⟨pfx ++ "/register", some ["GET"], "register_page"⟩ : Route) ∈
        register_all cfg pfx ∧
      (⟨pfx ++ "/register", some ["POST"], "register_submit"⟩ : Route) ∈
        register_all cfg pfx ↔
      truthy (cfgGet cfg "allow_registration") = true) ∧
    ((⟨pfx ++ "/forgot", some ["GET"], "forgot_page"⟩ : Route) ∈
        register_all cfg pfx ↔
      truthy (cfgGet cfg "allow_password_reset") = true) ∧
    ((register_all cfg pfx).all (fun r =>
        !(r.handler == "forgot_page") || (r.methods == some ["GET"])) = true) ∧
    ((register_all cfg pfx).all (fun r =>
        !(r.methods == some ["POST"]) ||
          (r.handler == "login_submit" || r.handler == "register_submit")) =
      true) := by
  cases hr : truthy (cfgGet cfg "allow_registration") <;>
  cases hp : truthy (cfgGet cfg "allow_password_reset") <;>
    simp [register_all, register_login_routes, register_logout_route,
      register_profile_route, register_registration_routes,
      register_password_reset_routes, hr, hp, Route.mk.injEq]

/-- Claim C5: whenever the access gate classifies a request as authenticated,
the resolved user record is attached to the request scope under the key
`"user"`, and the profile page reads exactly that principal back from the
scope — its result is determined by the scope and the query string alone,
with no second repository lookup. -/
theorem access_gate_attaches_principal (pp : List String) (lp : String)
    (db : UserTable) (sess : Session) (path : String) (u : User)
    (scope : List (String × User)) (sess2 : Session) (q : Form) (pfx : String)
    (h : access_gate pp lp db sess path = (.authenticated u, scope, sess2)) :
    (scope.find? (fun p => p.1 = "user")).map (·.2) = some u ∧
    profile_page scope q pfx =
      some (.profilePage u (queryGet q "success") (queryGet q "error")
        (pfx ++ "/profile")) := by
  have hscope : scope = [("user", u)] := by
    unfold access_gate at h
    repeat' split at h
    all_goals simp_all
    obtain ⟨h1, h2, h3⟩ := h
    subst h1
    exact h2.symm
  subst hscope
  exact ⟨rfl, rfl⟩

theorem access_gate_attaches_principal_witness :
    profile_page [("user", alice0)] [] "/auth" =
      some (.profilePage alice0 none none "/auth/profile") :=
  (access_gate_attaches_principal [] "/auth/login" [alice0]
      [("user_id", .num 1)] "/dashboard" alice0 [("user", alice0)]
      [("user_id", .num 1)] [] "/auth" (by decide)).2

theorem dbCreate_mem (s : Schema) (t : String) : t ∈ (dbCreate s t).tables := by
  unfold dbCreate
  split
  · assumption
  · simp

theorem dbCreate_mono (s : Schema) (t x : String) (h : x ∈ s.tables) :
    x ∈ (dbCreate s t).tables := by
  unfold dbCreate
  split
  · exact h
  · simp [h]

theorem dbCreate_of_mem (s : Schema) (t : String) (h : t ∈ s.tables) :
    dbCreate s t = s := by
  simp [dbCreate, h]

/-- Claim C6: `initialize_auth_tables` ensures the user and session tables
exist in storage (creating each only when absent), returns the live storage
handle, and is idempotent: a second call leaves the schema and the database
state unchanged and returns the same handle. -/
theorem initialize_auth_tables_idempotent (st : AuthDatabase) :
    "user" ∈ (initialize_auth_tables st).1.db.tables ∧
    "session" ∈ (initialize_auth_tables st).1.db.tables ∧
    (initialize_auth_tables st).2 = (initialize_auth_tables st).1.db ∧
    initialize_auth_tables (initialize_auth_tables st).1 =
      ((initialize_auth_tables st).1, (initialize_auth_tables st).1.db) := by
  have h1 : "user" ∈ (dbCreate (dbCreate st.db "user") "session").tables :=
    dbCreate_mono _ _ _ (dbCreate_mem _ _)
  have h2 : "session" ∈ (dbCreate (dbCreate st.db "user") "session").tables :=
    dbCreate_mem _ _
  refine ⟨h1, h2, rfl, ?_⟩
  simp [initialize_auth_tables, dbCreate_of_mem _ _ h1, dbCreate_of_mem _ _ h2]
